import Mathlib

/-!
Shallow embedding of the `LiveLogs` component
(`public/app/features/explore/LiveLogs.tsx`).

The component is a live-updating log viewer.  Its view state consists of a
rendered snapshot (`logsResultToRender`) and a freshness threshold
(`lastTimestamp`); the pause flag is owned by the caller and arrives as a
prop.  We embed the pure state-derivation, row-slicing, freshness, scroll
and render logic as Lean functions, and a small event-step machine that
sequences React's update cycle (derive state, render, `componentDidUpdate`)
so that claims over sequences of updates can be stated.

Numbers coming from JavaScript (epoch milliseconds, pixel metrics) are
modelled as `Int`.  JavaScript truthiness of the nullable number
`lastScrollPos` is modelled explicitly by `truthyNum`.
-/

/-- One log entry (the fields of `LogRowModel` that the component reads). -/
structure LogRowModel where
  timeEpochMs : Int
  timeLocal : String
  timeUtc : String
  timeFromNow : String
  entry : String
deriving Repr, DecidableEq

/-- The externally supplied log result (`LogsModel`); only `rows` is read. -/
structure LogsModel where
  rows : List LogRowModel
deriving Repr, DecidableEq

/-- The props the embedded logic reads.  The callbacks (`onPause`,
`onResume`, `stopLive`) are modelled as signals in outputs, not stored. -/
structure Props where
  logsResult : Option LogsModel
  timeZone : String
  isPaused : Bool
deriving Repr, DecidableEq

/-- The component's React state. -/
structure State where
  logsResultToRender : Option LogsModel
  lastTimestamp : Int
deriving Repr, DecidableEq

/-- JavaScript truthiness of a `number | null` field: `null` and `0` are
falsy, every other number is truthy. -/
def truthyNum : Option Int → Bool
  | some v => v != 0
  | none => false

/-- The rows held by the rendered snapshot
(`this.state.logsResultToRender ? this.state.logsResultToRender.rows : []`). -/
def stateRows (st : State) : List LogRowModel :=
  match st.logsResultToRender with
  | some m => m.rows
  | none => []

/-- The static `getDerivedStateFromProps(nextProps, state)`.  Returns `none` for
React's `null` (no state change).  The new `lastTimestamp` is
`state.logsResultToRender && last(state.logsResultToRender.rows) ?
last(state.logsResultToRender.rows).timeEpochMs : 0`: lodash `last` of an
empty array is `undefined` (falsy), a row object is truthy. -/
def getDerivedStateFromProps (nextProps : Props) (state : State) : Option State :=
  if !nextProps.isPaused then
    some
      { logsResultToRender := nextProps.logsResult
        lastTimestamp :=
          match state.logsResultToRender with
          | some m =>
            match m.rows.getLast? with
            | some r => r.timeEpochMs
            | none => 0
          | none => 0 }
  else
    none

/-- React applies a non-`null` result of `getDerivedStateFromProps` as the
new state (here the partial state covers every field), and keeps the old
state on `null`. -/
def applyDerived (st : State) (d : Option State) : State :=
  d.getD st

/-- JavaScript `array.slice(-n)` for positive `n`: the last `n` elements
(all of them when the array is shorter). -/
def sliceLastN (n : Nat) (l : List LogRowModel) : List LogRowModel :=
  l.drop (l.length - n)

/-- The method `rowsToRender()`: the full snapshot while paused, only the last 100 rows
(`rowsToRender.slice(-100)`) while streaming. -/
def rowsToRender (isPaused : Bool) (st : State) : List LogRowModel :=
  let rows := stateRows st
  if !isPaused then sliceLastN 100 rows else rows

/-- The method `isFresh(row)`: `row.timeEpochMs > this.state.lastTimestamp`. -/
def isFresh (st : State) (row : LogRowModel) : Bool :=
  row.timeEpochMs > st.lastTimestamp

/-- The scroll container metrics read by `onScroll`. -/
structure ScrollMetrics where
  scrollTop : Int
  clientHeight : Int
  scrollHeight : Int
deriving Repr, DecidableEq

/-- The quantity `scrollHeight - (scrollTop + clientHeight)` as computed in `onScroll`. -/
def distanceFromBottom (m : ScrollMetrics) : Int :=
  m.scrollHeight - (m.scrollTop + m.clientHeight)

/-- The handler `onScroll(event)`: given the current pause prop, the container metrics
and the current `lastScrollPos`, returns whether `onPause()` was invoked and
the new `lastScrollPos`. -/
def onScroll (isPaused : Bool) (m : ScrollMetrics) (lastScrollPos : Option Int) :
    Bool × Option Int :=
  let d := distanceFromBottom m
  if d ≥ 5 ∧ isPaused = false then (true, some d) else (false, lastScrollPos)

/-- The imperative scroll action `componentDidUpdate` (or the live-end ref
callback) performs on the viewport. -/
inductive ScrollEffect where
  | noScroll
  | scrollTo (top : Int)
  | scrollIntoViewEnd
deriving Repr, DecidableEq

/-- The method `componentDidUpdate(prevProps)`: on the `false → true` pause transition,
either restore the saved relative offset (`scrollTo(0, scrollHeight -
(lastScrollPos + clientHeight))`, consuming `lastScrollPos`) when
`this.lastScrollPos` is truthy, or scroll the live-end div into view.
Returns the scroll action and the new `lastScrollPos`. -/
def componentDidUpdate (prevIsPaused isPaused : Bool) (lastScrollPos : Option Int)
    (clientHeight scrollHeight : Int) (liveEndDiv : Bool) : ScrollEffect × Option Int :=
  if prevIsPaused = false ∧ isPaused = true then
    if truthyNum lastScrollPos then
      (ScrollEffect.scrollTo (scrollHeight - (lastScrollPos.getD 0 + clientHeight)), none)
    else
      ((if liveEndDiv then ScrollEffect.scrollIntoViewEnd else ScrollEffect.noScroll),
        lastScrollPos)
  else
    (ScrollEffect.noScroll, lastScrollPos)

/-- The timestamp cell of one rendered row: primary text and the `title`
tooltip, depending on `showUtc = timeZone === 'utc'`. -/
def renderRowTime (showUtc : Bool) (row : LogRowModel) : String × String :=
  if showUtc then
    (row.timeUtc, "Local: " ++ row.timeLocal ++ " (" ++ row.timeFromNow ++ ")")
  else
    (row.timeLocal, row.timeUtc ++ " (" ++ row.timeFromNow ++ ")")

/-- The observable output of one `render()` pass. -/
structure RenderOutput where
  /-- The rows painted, in order (`this.rowsToRender()`). -/
  renderedRows : List LogRowModel
  /-- Per painted row, whether the fresh style is applied (`this.isFresh(row)`). -/
  rowFresh : List Bool
  /-- Per painted row, primary timestamp text and tooltip. -/
  rowTimes : List (String × String)
  /-- Whether `onScroll={isPaused ? undefined : this.onScroll}` attached the handler. -/
  scrollListenerAttached : Bool
  /-- The live-end ref callback runs `scrollIntoView(false)` when the div is
  mounted and not paused; the div is rendered on every pass. -/
  scrollsToEnd : Bool
  /-- The `Last line received: … ago` span, rendered via `isPaused || (…)`. -/
  showsElapsedTime : Bool
deriving Repr, DecidableEq

/-- The method `render()`: maps props and state to the observable output. -/
def renderComponent (p : Props) (st : State) : RenderOutput :=
  let rows := rowsToRender p.isPaused st
  let showUtc := p.timeZone == "utc"
  { renderedRows := rows
    rowFresh := rows.map (isFresh st)
    rowTimes := rows.map (renderRowTime showUtc)
    scrollListenerAttached := !p.isPaused
    scrollsToEnd := !p.isPaused
    showsElapsedTime := !p.isPaused }

/-- The full component state carried across React update cycles: the last
received props, the React state and the mutable `lastScrollPos` field. -/
structure CState where
  props : Props
  state : State
  lastScrollPos : Option Int
deriving Repr, DecidableEq

/-- Mounting: the constructor sets `logsResultToRender` from the initial
props and `lastTimestamp` to 0; `getDerivedStateFromProps` then runs once
before the initial render.  `lastScrollPos` starts `null`. -/
def mount (p : Props) : CState :=
  let st0 : State := { logsResultToRender := p.logsResult, lastTimestamp := 0 }
  { props := p
    state := applyDerived st0 (getDerivedStateFromProps p st0)
    lastScrollPos := none }

/-- One React update cycle for a new props object: derive the new state,
render, then run `componentDidUpdate` with the previous props (reading the
scroll container metrics current at that moment).  Returns the next
component state and the scroll action performed. -/
def receiveProps (c : CState) (p : Props) (clientHeight scrollHeight : Int) :
    CState × ScrollEffect :=
  let st := applyDerived c.state (getDerivedStateFromProps p c.state)
  let r := componentDidUpdate c.props.isPaused p.isPaused c.lastScrollPos
    clientHeight scrollHeight true
  ({ props := p, state := st, lastScrollPos := r.2 }, r.1)

/-- A user scroll event: the handler only runs when the listener is attached
(`onScroll={isPaused ? undefined : this.onScroll}`).  Returns the next
component state and whether `onPause()` was invoked. -/
def receiveScroll (c : CState) (m : ScrollMetrics) : CState × Bool :=
  if (renderComponent c.props c.state).scrollListenerAttached then
    let r := onScroll c.props.isPaused m c.lastScrollPos
    ({ c with lastScrollPos := r.2 }, r.1)
  else
    (c, false)

/-- An external event driving the component. -/
inductive Event where
  | update (p : Props) (clientHeight scrollHeight : Int)
  | scroll (m : ScrollMetrics)
deriving Repr

/-- One step of the event machine. -/
def step (c : CState) : Event → CState
  | Event.update p ch sh => (receiveProps c p ch sh).1
  | Event.scroll m => (receiveScroll c m).1

/-- Run a sequence of events. -/
def run (c : CState) (es : List Event) : CState :=
  es.foldl step c

/-- A component state reachable from some mount by some event sequence. -/
def Reachable (c : CState) : Prop :=
  ∃ p es, run (mount p) es = c

/-! ### Sample data for witnesses -/

/-- A sample log row with a given timestamp. -/
def sampleRow (t : Int) : LogRowModel :=
  { timeEpochMs := t, timeLocal := "10:00:00", timeUtc := "09:00:00",
    timeFromNow := "a few seconds ago", entry := "line" }

/-- A sample log result whose rows carry the given timestamps. -/
def sampleModel (ts : List Int) : LogsModel :=
  { rows := ts.map sampleRow }

/-- Sample props with browser timezone, a snapshot of the given timestamps
and the given pause flag. -/
def sampleProps (ts : List Int) (paused : Bool) : Props :=
  { logsResult := some (sampleModel ts), timeZone := "browser", isPaused := paused }

/-- Sample scroll metrics. -/
def sampleMetrics (top ch sh : Int) : ScrollMetrics :=
  { scrollTop := top, clientHeight := ch, scrollHeight := sh }

/-- An event is admissible in a paused span: any scroll, or a props update
whose pause flag is `true`. -/
def pausedEvent : Event → Bool
  | Event.update p _ _ => p.isPaused
  | Event.scroll _ => true

/-! ### Helper lemmas -/

lemma getDerivedStateFromProps_paused (p : Props) (st : State) (h : p.isPaused = true) :
    getDerivedStateFromProps p st = none := by
  simp [getDerivedStateFromProps, h]

lemma step_update_paused_state (c : CState) (p : Props) (ch sh : Int)
    (h : p.isPaused = true) : (step c (Event.update p ch sh)).state = c.state := by
  simp [step, receiveProps, applyDerived, getDerivedStateFromProps_paused p c.state h]

lemma step_scroll_state (c : CState) (m : ScrollMetrics) :
    (step c (Event.scroll m)).state = c.state := by
  simp only [step, receiveScroll]
  split
  · rfl
  · rfl

lemma run_paused_state (c : CState) (es : List Event)
    (hp : ∀ e ∈ es, pausedEvent e = true) : (run c es).state = c.state := by
  induction es generalizing c with
  | nil => rfl
  | cons e es ih =>
    have hstep : (step c e).state = c.state := by
      cases e with
      | update p ch sh =>
        exact step_update_paused_state c p ch sh (hp _ (List.mem_cons_self _ _))
      | scroll m => exact step_scroll_state c m
    calc (run c (e :: es)).state = (run (step c e) es).state := rfl
      _ = (step c e).state := ih _ fun x hx => hp x (List.mem_cons_of_mem _ hx)
      _ = c.state := hstep

/-! ### Claims -/

/-- C1: while the pause flag is true, every external update leaves the view
state unchanged: `getDerivedStateFromProps` returns `null` whenever
`isPaused` is true, and over any event span whose prop updates all carry
`isPaused = true`, the rendered snapshot (`logsResultToRender`) and the
freshness threshold (`lastTimestamp`) are identical between any two
renders. -/
theorem paused_span_freezes_view_state (c : CState) (es : List Event)
    (hp : ∀ e ∈ es, pausedEvent e = true) :
    (∀ (p : Props) (st : State), p.isPaused = true →
      getDerivedStateFromProps p st = none) ∧
    (run c es).state.logsResultToRender = c.state.logsResultToRender ∧
    (run c es).state.lastTimestamp = c.state.lastTimestamp := by
  refine ⟨fun p st h => getDerivedStateFromProps_paused p st h, ?_, ?_⟩
  · rw [run_paused_state c es hp]
  · rw [run_paused_state c es hp]

/-- Witness for C1: a concrete paused span of two updates and one scroll
leaves the view state of a concrete mounted component unchanged. -/
theorem paused_span_freezes_view_state_witness :
    (run (mount (sampleProps [1, 2] true))
      [Event.update (sampleProps [1, 2, 3] true) 500 1000,
        Event.scroll (sampleMetrics 0 500 1000),
        Event.update (sampleProps [1, 2, 3, 4] true) 500 1200]).state.logsResultToRender
      = (mount (sampleProps [1, 2] true)).state.logsResultToRender :=
  (paused_span_freezes_view_state _ _ (by decide)).2.1

/-- C2: for every unpaused update, the new freshness threshold equals the
`timeEpochMs` of the last row of the snapshot rendered immediately before
the update (not of the newly arrived data, which becomes the new snapshot),
or 0 when the previous snapshot was absent or empty; in particular, for
successive unpaused updates whose snapshots end at t=100, t=200, t=300, the
threshold is 100 after accepting the second update and 200 after accepting
the third. -/
theorem unpaused_update_threshold_from_previous_snapshot
    (c : CState) (p : Props) (ch sh : Int) (hp : p.isPaused = false) :
    ((receiveProps c p ch sh).1.state.lastTimestamp =
      match c.state.logsResultToRender with
      | some m =>
        match m.rows.getLast? with
        | some r => r.timeEpochMs
        | none => 0
      | none => 0) ∧
    ((receiveProps c p ch sh).1.state.logsResultToRender = p.logsResult) ∧
    (∀ (m1 m2 m3 : LogsModel) (r1 r2 : LogRowModel) (tz : String),
      c.state.logsResultToRender = some m1 →
      m1.rows.getLast? = some r1 → r1.timeEpochMs = 100 →
      m2.rows.getLast? = some r2 → r2.timeEpochMs = 200 →
      (run c [Event.update ⟨some m2, tz, false⟩ ch sh]).state.lastTimestamp = 100 ∧
      (run c [Event.update ⟨some m2, tz, false⟩ ch sh,
          Event.update ⟨some m3, tz, false⟩ ch sh]).state.lastTimestamp = 200) := by
  refine ⟨?_, ?_, ?_⟩
  · simp [receiveProps, applyDerived, getDerivedStateFromProps, hp]
  · simp [receiveProps, applyDerived, getDerivedStateFromProps, hp]
  · intro m1 m2 m3 r1 r2 tz h1 h2 h3 h4 h5
    constructor
    · simp [run, step, receiveProps, applyDerived, getDerivedStateFromProps, h1, h2, h3]
    · simp [run, step, receiveProps, applyDerived, getDerivedStateFromProps,
        h1, h2, h3, h4, h5]

/-- Witness for C2: three concrete unpaused updates with snapshots ending at
100, 200, 300; the threshold reads 100 after the second and 200 after the
third. -/
theorem unpaused_update_threshold_witness :
    (run (mount (sampleProps [50, 100] false))
        [Event.update ⟨some (sampleModel [150, 200]), "browser", false⟩ 500 1000]
      ).state.lastTimestamp = 100 ∧
    (run (mount (sampleProps [50, 100] false))
        [Event.update ⟨some (sampleModel [150, 200]), "browser", false⟩ 500 1000,
          Event.update ⟨some (sampleModel [250, 300]), "browser", false⟩ 500 1000]
      ).state.lastTimestamp = 200 := by
  have h := (unpaused_update_threshold_from_previous_snapshot
    (mount (sampleProps [50, 100] false)) (sampleProps [50, 100] false) 500 1000
    (by decide)).2.2 (sampleModel [50, 100]) (sampleModel [150, 200])
    (sampleModel [250, 300]) (sampleRow 100) (sampleRow 200) "browser"
    (by decide) (by decide) (by decide) (by decide) (by decide)
  exact ⟨h.1, h.2⟩

/-- C3: the rendered row list is the result of `rowsToRender`; while paused
it is exactly the full snapshot, and while unpaused it is exactly the last
`min 100 totalRows` rows of the snapshot — a suffix of the snapshot (oldest
rows truncated, order preserved) of length `min 100 totalRows`. -/
theorem render_row_slice_policy (p : Props) (st : State) :
    (renderComponent p st).renderedRows = rowsToRender p.isPaused st ∧
    rowsToRender true st = stateRows st ∧
    (rowsToRender false st).length = min 100 (stateRows st).length ∧
    rowsToRender false st <:+ stateRows st := by
  refine ⟨rfl, rfl, ?_, ?_⟩
  · simp only [rowsToRender, sliceLastN, Bool.not_false, if_pos, List.length_drop]
    omega
  · show List.drop ((stateRows st).length - 100) (stateRows st) <:+ stateRows st
    exact List.drop_suffix _ _

/-- C4: on the update where `isPaused` goes from false to true, a saved
pending scroll offset `d` (offsets are only ever saved with `d ≥ 5`) makes
the container scroll to `scrollHeight - (d + clientHeight)` against the
current metrics and is then cleared; with no saved offset the view scrolls
to the bottom once instead. -/
theorem pause_transition_scroll_restore (d ch sh : Int) (hd : 5 ≤ d) :
    componentDidUpdate false true (some d) ch sh true
        = (ScrollEffect.scrollTo (sh - (d + ch)), none) ∧
    componentDidUpdate false true none ch sh true
        = (ScrollEffect.scrollIntoViewEnd, none) := by
  constructor
  · have ht : truthyNum (some d) = true := by
      simp only [truthyNum, bne_iff_ne, ne_eq, decide_eq_true_eq]
      omega
    simp [componentDidUpdate, ht]
  · simp [componentDidUpdate, truthyNum]

/-- Witness for C4: offset 50, clientHeight 500, scrollHeight 1200 restore
scrollTop 650; with no offset the live end is scrolled into view. -/
theorem pause_transition_scroll_restore_witness :
    componentDidUpdate false true (some 50) 500 1200 true
        = (ScrollEffect.scrollTo 650, none) ∧
    componentDidUpdate false true none 500 1200 true
        = (ScrollEffect.scrollIntoViewEnd, none) :=
  ⟨(pause_transition_scroll_restore 50 500 1200 (by decide)).1.trans (by decide),
    (pause_transition_scroll_restore 50 500 1200 (by decide)).2⟩

/-- C5: a scroll event while unpaused with
`distanceFromBottom = scrollHeight - (scrollTop + clientHeight) ≥ 5` invokes
`onPause` and records the distance as the pending offset; with
`distanceFromBottom < 5` it does neither; while paused the scroll listener
is not attached, so scroll events never trigger `onPause`. -/
theorem scroll_pause_threshold (m : ScrollMetrics) (lsp : Option Int) (c : CState) :
    (5 ≤ distanceFromBottom m →
      onScroll false m lsp = (true, some (distanceFromBottom m))) ∧
    (distanceFromBottom m < 5 → onScroll false m lsp = (false, lsp)) ∧
    (∀ (p : Props) (st : State), p.isPaused = true →
      (renderComponent p st).scrollListenerAttached = false) ∧
    (c.props.isPaused = true → receiveScroll c m = (c, false)) := by
  refine ⟨?_, ?_, ?_, ?_⟩
  · intro h
    simp only [onScroll]
    rw [if_pos ⟨h, trivial⟩]
  · intro h
    simp only [onScroll]
    rw [if_neg fun hc => absurd hc.1 (by omega)]
  · intro p st hp
    simp [renderComponent, hp]
  · intro hc
    simp [receiveScroll, renderComponent, hc]

/-- Witness for C5: with clientHeight 500 and scrollHeight 1000, scrollTop
495 (distance 5) pauses and records 5; scrollTop 496 (distance 4) does
nothing; a scroll event on a concretely paused component is ignored. -/
theorem scroll_pause_threshold_witness :
    onScroll false (sampleMetrics 495 500 1000) none = (true, some 5) ∧
    onScroll false (sampleMetrics 496 500 1000) none = (false, none) ∧
    receiveScroll (mount (sampleProps [1] true)) (sampleMetrics 495 500 1000)
      = (mount (sampleProps [1] true), false) :=
  ⟨((scroll_pause_threshold (sampleMetrics 495 500 1000) none
      (mount (sampleProps [1] true))).1 (by decide)).trans (by decide),
    (scroll_pause_threshold (sampleMetrics 496 500 1000) none
      (mount (sampleProps [1] true))).2.1 (by decide),
    (scroll_pause_threshold (sampleMetrics 495 500 1000) none
      (mount (sampleProps [1] true))).2.2.2 (by decide)⟩

/-- C6: a row is classified fresh iff its `timeEpochMs` is strictly greater
than the current threshold `lastTimestamp`, and the classification depends
only on the pair (row timestamp, threshold): equal pairs classify
identically across any states and rows. -/
theorem fresh_iff_after_threshold (st₁ st₂ : State) (r₁ r₂ : LogRowModel) :
    (isFresh st₁ r₁ = true ↔ r₁.timeEpochMs > st₁.lastTimestamp) ∧
    (r₁.timeEpochMs = r₂.timeEpochMs → st₁.lastTimestamp = st₂.lastTimestamp →
      isFresh st₁ r₁ = isFresh st₂ r₂) := by
  constructor
  · simp [isFresh]
  · intro h1 h2
    simp [isFresh, h1, h2]

/-- Witness for C6: a row at t=7 against threshold 5 is fresh, and two
states with the same threshold classify the same row identically. -/
theorem fresh_iff_after_threshold_witness :
    (isFresh ⟨none, 5⟩ (sampleRow 7) = true ↔ (7 : Int) > 5) ∧
    isFresh ⟨none, 5⟩ (sampleRow 7)
      = isFresh ⟨some (sampleModel [1]), 5⟩ (sampleRow 7) :=
  ⟨(fresh_iff_after_threshold ⟨none, 5⟩ ⟨some (sampleModel [1]), 5⟩
      (sampleRow 7) (sampleRow 7)).1,
    (fresh_iff_after_threshold ⟨none, 5⟩ ⟨some (sampleModel [1]), 5⟩
      (sampleRow 7) (sampleRow 7)).2 rfl rfl⟩

/-! ### Pending-offset invariant for the resume claim -/

/-- While the component is paused, the mutable `lastScrollPos` field holds
no (truthy) pending offset: offsets are only saved by the scroll handler,
which is detached while paused, and the pause transition consumes them. -/
def PausedNoPendingOffset (c : CState) : Prop :=
  c.props.isPaused = true → truthyNum c.lastScrollPos = false

lemma inv_mount (p : Props) : PausedNoPendingOffset (mount p) :=
  fun _ => rfl

lemma componentDidUpdate_preserves_clear (prev now : Bool) (lsp : Option Int)
    (ch sh : Int) (h : prev = true → truthyNum lsp = false) (hn : now = true) :
    truthyNum (componentDidUpdate prev now lsp ch sh true).2 = false := by
  cases prev with
  | false =>
    cases ht : truthyNum lsp with
    | true =>
      have hcdu : componentDidUpdate false now lsp ch sh true
          = (ScrollEffect.scrollTo (sh - (lsp.getD 0 + ch)), none) := by
        simp [componentDidUpdate, hn, ht]
      rw [hcdu]
      rfl
    | false =>
      have hcdu : componentDidUpdate false now lsp ch sh true
          = (ScrollEffect.scrollIntoViewEnd, lsp) := by
        simp [componentDidUpdate, hn, ht]
      rw [hcdu]
      exact ht
  | true =>
    simp only [componentDidUpdate]
    rw [if_neg fun hc => by simp at hc]
    exact h rfl

lemma step_scroll_props (c : CState) (m : ScrollMetrics) :
    (step c (Event.scroll m)).props = c.props := by
  simp only [step, receiveScroll]
  split
  · rfl
  · rfl

lemma inv_step (c : CState) (e : Event) (h : PausedNoPendingOffset c) :
    PausedNoPendingOffset (step c e) := by
  cases e with
  | update p ch sh =>
    intro hp
    exact componentDidUpdate_preserves_clear c.props.isPaused p.isPaused
      c.lastScrollPos ch sh (fun hprev => h hprev) hp
  | scroll m =>
    intro hp
    rw [step_scroll_props] at hp
    have hAtt : (renderComponent c.props c.state).scrollListenerAttached = false := by
      simp [renderComponent, hp]
    have hfix : step c (Event.scroll m) = c := by
      simp [step, receiveScroll, hAtt]
    rw [hfix]
    exact h hp

lemma inv_run (es : List Event) (c : CState) (h : PausedNoPendingOffset c) :
    PausedNoPendingOffset (run c es) := by
  induction es generalizing c with
  | nil => exact h
  | cons e es ih => exact ih (step c e) (inv_step c e h)

lemma reachable_inv (c : CState) (h : Reachable c) : PausedNoPendingOffset c := by
  obtain ⟨p, es, rfl⟩ := h
  exact inv_run es (mount p) (inv_mount p)

/-- C7: when `isPaused` goes from true back to false, the next update
renders with the scroll listener reattached and scrolls the viewport to the
end regardless of any offset saved before the pause, and no pending scroll
offset remains. -/
theorem resume_scrolls_to_end_and_clears_offset (c : CState) (p : Props)
    (ch sh : Int) (hr : Reachable c) (hpaused : c.props.isPaused = true)
    (hp : p.isPaused = false) :
    (renderComponent (receiveProps c p ch sh).1.props
        (receiveProps c p ch sh).1.state).scrollsToEnd = true ∧
    (renderComponent (receiveProps c p ch sh).1.props
        (receiveProps c p ch sh).1.state).scrollListenerAttached = true ∧
    truthyNum (receiveProps c p ch sh).1.lastScrollPos = false := by
  refine ⟨?_, ?_, ?_⟩
  · simp [renderComponent, receiveProps, hp]
  · simp [renderComponent, receiveProps, hp]
  · have hc := reachable_inv c hr hpaused
    simp only [receiveProps]
    simp [componentDidUpdate, hpaused, hp]
    exact hc

/-- Witness for C7: mount unpaused, scroll away from the bottom (saving
offset 50), pause, then resume; the render after resume scrolls to the end,
reattaches the listener, and no pending offset remains. -/
theorem resume_scrolls_to_end_witness :
    (renderComponent (receiveProps (run (mount (sampleProps [1] false))
          [Event.scroll (sampleMetrics 450 500 1000),
            Event.update (sampleProps [1, 2] true) 500 1000])
        (sampleProps [1, 2, 3] false) 500 1200).1.props
      (receiveProps (run (mount (sampleProps [1] false))
          [Event.scroll (sampleMetrics 450 500 1000),
            Event.update (sampleProps [1, 2] true) 500 1000])
        (sampleProps [1, 2, 3] false) 500 1200).1.state).scrollsToEnd = true ∧
    truthyNum (receiveProps (run (mount (sampleProps [1] false))
          [Event.scroll (sampleMetrics 450 500 1000),
            Event.update (sampleProps [1, 2] true) 500 1000])
        (sampleProps [1, 2, 3] false) 500 1200).1.lastScrollPos = false :=
  ⟨(resume_scrolls_to_end_and_clears_offset _ _ 500 1200
      ⟨sampleProps [1] false, [Event.scroll (sampleMetrics 450 500 1000),
        Event.update (sampleProps [1, 2] true) 500 1000], rfl⟩
      (by decide) (by decide)).1,
    (resume_scrolls_to_end_and_clears_offset _ _ 500 1200
      ⟨sampleProps [1] false, [Event.scroll (sampleMetrics 450 500 1000),
        Event.update (sampleProps [1, 2] true) 500 1000], rfl⟩
      (by decide) (by decide)).2.2⟩

/-- C8: an absent `logsResult` or an empty row list renders zero rows at any
time (paused or not), including the very first render, and deriving the
freshness threshold from an absent or empty previous snapshot yields 0
rather than failing on a missing last row. -/
theorem empty_logs_result_safe (p : Props) (st : State) (b : Bool) (t : Int)
    (tz : String) :
    (stateRows st = [] → rowsToRender b st = []) ∧
    rowsToRender b { logsResultToRender := none, lastTimestamp := t } = [] ∧
    (stateRows st = [] → p.isPaused = false →
      (applyDerived st (getDerivedStateFromProps p st)).lastTimestamp = 0) ∧
    (mount ⟨none, tz, b⟩).state.lastTimestamp = 0 ∧
    (renderComponent ⟨none, tz, b⟩ (mount ⟨none, tz, b⟩).state).renderedRows = [] := by
  refine ⟨?_, ?_, ?_, ?_, ?_⟩
  · intro hst
    simp [rowsToRender, hst, sliceLastN]
  · simp [rowsToRender, stateRows, sliceLastN]
  · intro hst hp
    cases hm : st.logsResultToRender with
    | none => simp [applyDerived, getDerivedStateFromProps, hp, hm]
    | some m =>
      have hrows : m.rows = [] := by simpa [stateRows, hm] using hst
      simp [applyDerived, getDerivedStateFromProps, hp, hm, hrows]
  · cases b <;> rfl
  · cases b <;> rfl

/-- Witness for C8: a present-but-empty snapshot renders no rows and derives
threshold 0 on an unpaused update. -/
theorem empty_logs_result_safe_witness :
    rowsToRender false ⟨some ⟨[]⟩, 3⟩ = [] ∧
    (applyDerived ⟨some ⟨[]⟩, 3⟩
      (getDerivedStateFromProps (sampleProps [1] false) ⟨some ⟨[]⟩, 3⟩)).lastTimestamp
      = 0 :=
  ⟨(empty_logs_result_safe (sampleProps [1] false) ⟨some ⟨[]⟩, 3⟩ false 3 "browser").1
      rfl,
    (empty_logs_result_safe (sampleProps [1] false) ⟨some ⟨[]⟩, 3⟩ false 3
      "browser").2.2.1 rfl rfl⟩

/-- C9: the timestamp cell of every rendered row is produced by
`renderRowTime` with `showUtc = (timeZone == "utc")`; when the timezone is
`utc` the primary text is the row's UTC time and the tooltip is
`Local: <local> (<relative>)`; for any other timezone the primary text is
the row's local time and the tooltip is `<utc> (<relative>)`. -/
theorem timestamp_display_by_timezone (p : Props) (st : State) (row : LogRowModel) :
    ((renderComponent p st).rowTimes
        = (rowsToRender p.isPaused st).map (renderRowTime (p.timeZone == "utc"))) ∧
    (p.timeZone = "utc" →
      renderRowTime (p.timeZone == "utc") row
        = (row.timeUtc, "Local: " ++ row.timeLocal ++ " (" ++ row.timeFromNow ++ ")")) ∧
    (p.timeZone ≠ "utc" →
      renderRowTime (p.timeZone == "utc") row
        = (row.timeLocal, row.timeUtc ++ " (" ++ row.timeFromNow ++ ")")) := by
  refine ⟨rfl, ?_, ?_⟩
  · intro h
    simp [renderRowTime, h]
  · intro h
    simp [renderRowTime, beq_iff_eq, h]

/-- Witness for C9: a concrete row under the `utc` and `browser` timezones. -/
theorem timestamp_display_by_timezone_witness :
    renderRowTime (("utc" : String) == "utc") (sampleRow 5)
      = ("09:00:00", "Local: 10:00:00 (a few seconds ago)") ∧
    renderRowTime (("browser" : String) == "utc") (sampleRow 5)
      = ("10:00:00", "09:00:00 (a few seconds ago)") :=
  ⟨((timestamp_display_by_timezone ⟨none, "utc", false⟩ ⟨none, 0⟩
      (sampleRow 5)).2.1 rfl).trans (by decide),
    ((timestamp_display_by_timezone ⟨none, "browser", false⟩ ⟨none, 0⟩
      (sampleRow 5)).2.2 (by decide)).trans (by decide)⟩

/-- C10: the `Last line received … ago` indicator is rendered exactly when
`isPaused` is false, independently of whether any log results have been
received. -/
theorem elapsed_indicator_iff_unpaused (p : Props) (st : State) :
    ((renderComponent p st).showsElapsedTime = true ↔ p.isPaused = false) ∧
    (∀ (lr : Option LogsModel),
      (renderComponent { p with logsResult := lr } st).showsElapsedTime
        = (renderComponent p st).showsElapsedTime) := by
  constructor
  · simp [renderComponent]
  · intro lr
    rfl

/-- Witness for C10: a paused render with data received hides the indicator;
the same render unpaused shows it. -/
theorem elapsed_indicator_iff_unpaused_witness :
    ((renderComponent (sampleProps [1] true) ⟨some (sampleModel [1]), 0⟩
        ).showsElapsedTime = true ↔ (sampleProps [1] true).isPaused = false) ∧
    (renderComponent (sampleProps [1] false) ⟨some (sampleModel [1]), 0⟩
        ).showsElapsedTime = true :=
  ⟨(elapsed_indicator_iff_unpaused (sampleProps [1] true)
      ⟨some (sampleModel [1]), 0⟩).1,
    (elapsed_indicator_iff_unpaused (sampleProps [1] false)
      ⟨some (sampleModel [1]), 0⟩).1.mpr rfl⟩
